import Mathlib

/-!
Shallow embedding of the `gpdc-dynamodb` cache manager (`src/index.js`).

The DynamoDB document client is modelled as an in-memory table keyed by
`KeyMD5` (an association list of items), together with explicit Boolean
failure flags, one per store round trip, standing for the `catch` branches
of the source.  Every public operation returns the JS return value, the
table after the call, and the trace of store calls it issued.

External collaborators (the `md5` package and the serializer
`logger.stringify` / `JSON.parse`) are parameters of each operation, since
their code is not part of this repository; theorems that depend on their
contract (determinism, losslessness) take that contract as a hypothesis,
matching the spec's codec/fingerprint contracts.
-/

namespace GpdcDynamodb

/-- A loosely typed JavaScript value used for the constructor's counter
flags (`downLoadCounter`, `redundancyCounter`), which the source compares
with `true === x` / `true !== x` (strict equality, `src/index.js` lines 66
and 134). -/
inductive JsFlag where
  | bool (b : Bool)
  | num (n : Int)
  | str (s : String)
deriving DecidableEq, Repr

/-- JS strict equality against the literal `true`: `true === x`. -/
def jsStrictTrue : JsFlag → Bool
  | JsFlag.bool b => b
  | JsFlag.num _ => false
  | JsFlag.str _ => false

/-- JS truthiness of a flag value (`Boolean(x)`): nonzero numbers and
non-empty strings are truthy. -/
def jsTruthy : JsFlag → Bool
  | JsFlag.bool b => b
  | JsFlag.num n => decide (n ≠ 0)
  | JsFlag.str s => decide (s ≠ "")

/-- One DynamoDB item, with the attribute names of `src/index.js`
(lines 166-177).  Times are integers: `timeCreated`/`timeUpdated` in
milliseconds, `ExpiryTime` in epoch seconds. -/
structure DBItem where
  KeyMD5 : String
  ValueMD5 : String
  cacheKey : String
  cacheValue : String
  ttlInSeconds : Int
  ExpiryTime : Int
  timeCreated : Int
  timeUpdated : Int
  downloads : Int
  redundancy : Int
deriving DecidableEq, Repr

/-- The backing table: at most one item per `KeyMD5` is ever consulted
(`KeyMD5` is the primary partition key; queries use `Limit: 1`). -/
abbrev Table := List DBItem

/-- Primary-key lookup: the item whose `KeyMD5` equals the given digest. -/
def findByKey (tbl : Table) (keyMD5 : String) : Option DBItem :=
  tbl.find? (fun it => it.KeyMD5 == keyMD5)

/-- The `get` query (`src/index.js` lines 40-51): key condition
`KeyMD5 = :keyMD5` with filter
`ExpiryTime > :timeNowInSeconds and timeUpdated > :recentTimeInMilliseconds`. -/
def queryGetFilter (tbl : Table) (keyMD5 : String)
    (timeNowInSeconds recentTimeInMilliseconds : Int) : Option DBItem :=
  (findByKey tbl keyMD5).bind (fun it =>
    if timeNowInSeconds < it.ExpiryTime ∧ recentTimeInMilliseconds < it.timeUpdated then
      some it
    else none)

/-- The `put` dedup query (`src/index.js` lines 117-128): key condition
`KeyMD5 = :keyMD5` with filter
`ExpiryTime > :timeNowInSeconds and ValueMD5 = :valueMD5`. -/
def queryPutFilter (tbl : Table) (keyMD5 valueMD5 : String)
    (timeNowInSeconds : Int) : Option DBItem :=
  (findByKey tbl keyMD5).bind (fun it =>
    if timeNowInSeconds < it.ExpiryTime ∧ it.ValueMD5 = valueMD5 then some it
    else none)

/-- The download-counter update (`src/index.js` lines 69-81):
`set downloads = downloads + :one`. -/
def bumpDownloads (tbl : Table) (keyMD5 : String) : Table :=
  tbl.map (fun it =>
    if it.KeyMD5 == keyMD5 then { it with downloads := it.downloads + 1 } else it)

/-- The redundancy-extension update (`src/index.js` lines 139-151):
`set redundancy = redundancy + :one, timeUpdated = :timeNowInSeconds,
ExpiryTime = :ExpiryTime`.  Note the source binds `:timeNowInSeconds`
(a value in seconds) into `timeUpdated`, whose unit everywhere else in the
repository is milliseconds. -/
def extendEntry (tbl : Table) (keyMD5 : String)
    (timeNowInSeconds newExpiry : Int) : Table :=
  tbl.map (fun it =>
    if it.KeyMD5 == keyMD5 then
      { it with redundancy := it.redundancy + 1,
                timeUpdated := timeNowInSeconds,
                ExpiryTime := newExpiry }
    else it)

/-- A DynamoDB `put` replaces the whole item stored under the same
primary key. -/
def upsertItem (tbl : Table) (item : DBItem) : Table :=
  item :: tbl.filter (fun it => !(it.KeyMD5 == item.KeyMD5))

/-- The tags of the four document-client calls the manager can issue. -/
inductive StoreCall where
  | query
  | update
  | putItem
  | deleteItem
deriving DecidableEq, Repr

/-- Constructor state of `CacheManager` (`src/index.js` lines 8-19); the
document client and table name carry no semantics in the model. -/
structure CacheManager where
  downLoadCounter : JsFlag
  redundancyCounter : JsFlag
  defaultTTLInSeconds : Int
deriving DecidableEq, Repr

/-- The object returned by a `get` hit:
`{ value: JSON.parse(dbItem.cacheValue), ExpiryTime: dbItem.ExpiryTime }`. -/
structure GetResult (V : Type) where
  value : V
  ExpiryTime : Int

/-- The object returned by a successful `put`: `{ keyMD5, ExpiryTime }`. -/
structure PutResult where
  keyMD5 : String
  ExpiryTime : Int
deriving DecidableEq, Repr

/-- The guard `null != recencyInSeconds && 0 >= recencyInSeconds`
(`src/index.js` line 27). -/
def recencyNonPositive : Option Int → Bool
  | none => false
  | some r => decide (r ≤ 0)

/-- `recentTimeInMilliseconds` (`src/index.js` line 34):
`null == recencyInSeconds ? 0 : timeNowInMilliseconds - recencyInSeconds * 1000`. -/
def recentTimeInMilliseconds (recencyInSeconds : Option Int)
    (timeNowInMilliseconds : Int) : Int :=
  match recencyInSeconds with
  | none => 0
  | some r => timeNowInMilliseconds - r * 1000

/-- `CacheManager.get` (`src/index.js` lines 26-88).  `timeNowInMilliseconds`
stands for `Date.now()`; `queryFails` (resp. `bumpFails`) injects a store
failure into the query (resp. the download-counter update). -/
def CacheManager.get {V : Type} (m : CacheManager) (md5 : String → String)
    (parse : String → V) (tbl : Table) (key : String)
    (recencyInSeconds : Option Int) (timeNowInMilliseconds : Int)
    (queryFails bumpFails : Bool) :
    Option (GetResult V) × Table × List StoreCall :=
  if recencyNonPositive recencyInSeconds then (none, tbl, [])
  else
    let keyMD5 := md5 key
    let timeNowInSeconds := Int.fdiv timeNowInMilliseconds 1000
    let recentTime := recentTimeInMilliseconds recencyInSeconds timeNowInMilliseconds
    if queryFails then (none, tbl, [StoreCall.query])
    else
      match queryGetFilter tbl keyMD5 timeNowInSeconds recentTime with
      | none => (none, tbl, [StoreCall.query])
      | some dbItem =>
        if jsStrictTrue m.downLoadCounter then
          if bumpFails then
            (some ⟨parse dbItem.cacheValue, dbItem.ExpiryTime⟩, tbl,
              [StoreCall.query, StoreCall.update])
          else
            (some ⟨parse dbItem.cacheValue, dbItem.ExpiryTime⟩,
              bumpDownloads tbl keyMD5,
              [StoreCall.query, StoreCall.update])
        else
          (some ⟨parse dbItem.cacheValue, dbItem.ExpiryTime⟩, tbl,
            [StoreCall.query])

/-- The effective TTL of a `put` (`src/index.js` lines 98-101): the default
replaces a missing or non-positive argument. -/
def effectiveTTL (m : CacheManager) (ttlInSeconds : Option Int) : Int :=
  match ttlInSeconds with
  | none => m.defaultTTLInSeconds
  | some t => if t ≤ 0 then m.defaultTTLInSeconds else t

/-- `CacheManager.put` (`src/index.js` lines 97-185).  The source calls
`Date.now()` twice (line 111 and again at line 162 inside the full-write
block); `timeNowInMilliseconds` / `timeNowInMilliseconds2` stand for the
two readings.  `dedupQueryFails`, `updateFails` and `writeFails` inject
store failures into the dedup query, the redundancy-extension update and
the unconditional item write respectively. -/
def CacheManager.put {V : Type} (m : CacheManager) (md5 : String → String)
    (stringify : V → String) (tbl : Table) (key : String) (value : Option V)
    (ttlInSeconds : Option Int)
    (timeNowInMilliseconds timeNowInMilliseconds2 : Int)
    (dedupQueryFails updateFails writeFails : Bool) :
    Option PutResult × Table × List StoreCall :=
  let ttl := effectiveTTL m ttlInSeconds
  match value with
  | none => (none, tbl, [])
  | some v =>
    let valueToCache := stringify v
    let keyMD5 := md5 key
    let valueMD5 := md5 valueToCache
    let timeNowInSeconds := Int.fdiv timeNowInMilliseconds 1000
    if dedupQueryFails then (none, tbl, [StoreCall.query])
    else
      match queryPutFilter tbl keyMD5 valueMD5 timeNowInSeconds with
      | some dbItem =>
        if jsStrictTrue m.redundancyCounter then
          if updateFails then (none, tbl, [StoreCall.query, StoreCall.update])
          else
            let newExpiry := timeNowInSeconds + dbItem.ttlInSeconds
            (some ⟨keyMD5, newExpiry⟩,
              extendEntry tbl keyMD5 timeNowInSeconds newExpiry,
              [StoreCall.query, StoreCall.update])
        else
          (some ⟨keyMD5, dbItem.ExpiryTime⟩, tbl, [StoreCall.query])
      | none =>
        let timeNowInSeconds2 := Int.fdiv timeNowInMilliseconds2 1000
        if writeFails then (none, tbl, [StoreCall.query, StoreCall.putItem])
        else
          let item : DBItem :=
            { KeyMD5 := keyMD5
              ValueMD5 := valueMD5
              cacheKey := key
              cacheValue := valueToCache
              ttlInSeconds := ttl
              ExpiryTime := timeNowInSeconds2 + ttl
              timeCreated := timeNowInMilliseconds2
              timeUpdated := timeNowInMilliseconds2
              downloads := 0
              redundancy := 0 }
          (some ⟨keyMD5, timeNowInSeconds2 + ttl⟩, upsertItem tbl item,
            [StoreCall.query, StoreCall.putItem])

/-- `CacheManager.delete` (`src/index.js` lines 192-210): issues one
document-client `delete` and returns whether it succeeded. -/
def CacheManager.delete (m : CacheManager) (md5 : String → String)
    (tbl : Table) (key : String) (deleteFails : Bool) :
    Bool × Table × List StoreCall :=
  let keyMD5 := md5 key
  if deleteFails then (false, tbl, [StoreCall.deleteItem])
  else (true, tbl.filter (fun it => !(it.KeyMD5 == keyMD5)),
    [StoreCall.deleteItem])

/-- A flag that is not the boolean literal `true` fails the source's strict
comparison `true === flag`. -/
theorem jsStrictTrue_eq_false_of_ne {f : JsFlag} (h : f ≠ JsFlag.bool true) :
    jsStrictTrue f = false := by
  cases f with
  | bool b =>
    cases b with
    | true => exact absurd rfl h
    | false => rfl
  | num n => rfl
  | str s => rfl

/-- Characterization of the `get` query's filter expression. -/
theorem queryGetFilter_eq_some_iff (tbl : Table) (k : String) (ns rt : Int)
    (it : DBItem) :
    queryGetFilter tbl k ns rt = some it ↔
      findByKey tbl k = some it ∧ ns < it.ExpiryTime ∧ rt < it.timeUpdated := by
  unfold queryGetFilter
  cases h : findByKey tbl k with
  | none => simp [h]
  | some it2 =>
    simp only [h, Option.some_bind]
    by_cases hc : ns < it2.ExpiryTime ∧ rt < it2.timeUpdated
    · rw [if_pos hc]
      constructor
      · intro h2
        injection h2 with h2
        subst h2
        exact ⟨rfl, hc⟩
      · rintro ⟨h1, _⟩
        injection h1 with h1
        rw [h1]
    · rw [if_neg hc]
      constructor
      · intro h2
        exact Option.noConfusion h2
      · rintro ⟨h1, h2⟩
        injection h1 with h1
        subst h1
        exact absurd h2 hc

/-- C7: `put(k, null, ttl)` returns a miss (`null`), leaves the table
untouched, and issues zero store calls — no query and no write — for every
key, TTL argument, clock reading and failure schedule. -/
theorem put_null_value_returns_miss_with_zero_store_calls {V : Type}
    (m : CacheManager) (md5 : String → String) (stringify : V → String)
    (tbl : Table) (key : String) (ttl : Option Int) (t1 t2 : Int)
    (f1 f2 f3 : Bool) :
    m.put md5 stringify tbl key (none : Option V) ttl t1 t2 f1 f2 f3 =
      (none, tbl, []) := rfl

/-- C6: when the dedup query of `put` fails with a store error, `put`
returns a miss, the table is unchanged, and the only store call issued is
the failed query — it never falls through to the unconditional full
write. -/
theorem put_dedup_error_aborts_without_write {V : Type}
    (m : CacheManager) (md5 : String → String) (stringify : V → String)
    (tbl : Table) (key : String) (v : V) (ttl : Option Int) (t1 t2 : Int)
    (uf wf : Bool) :
    m.put md5 stringify tbl key (some v) ttl t1 t2 true uf wf =
      (none, tbl, [StoreCall.query]) := rfl

/-- C9: `delete(k)` returns exactly the boolean success of the backing
delete call — `true` whenever the store call succeeds (whether or not a
row for the key existed in the table), `false` on store failure — and
always issues exactly one delete call. -/
theorem delete_returns_backing_call_success (m : CacheManager)
    (md5 : String → String) (tbl : Table) (key : String)
    (deleteFails : Bool) :
    (m.delete md5 tbl key deleteFails).1 = !deleteFails ∧
    (m.delete md5 tbl key deleteFails).2.2 = [StoreCall.deleteItem] := by
  cases deleteFails <;> simp [CacheManager.delete]

/-- C1: evidence of a code bug on the redundancy-extension path of `put`.
With a live matching entry (ttl 60 s, expiry 100 s) and the clock at
50000 ms, the extension stores `timeUpdated = 50` — the value of
`timeNowInSeconds`, not the current time in milliseconds (50000) — so the
stored entry violates the invariant
`ExpiryTime = timeUpdated/1000 + ttlInSeconds` (110 ≠ 50/1000 + 60),
which would hold had `timeUpdated` been set to 50000 as the spec and the
repository's own field documentation (milliseconds) require. -/
theorem put_extension_stores_timeUpdated_in_seconds :
    (((CacheManager.mk (JsFlag.bool true) (JsFlag.bool true) 900).put
        (fun s => s) (fun s : String => s)
        [⟨"k", "v", "k", "v", 60, 100, 1000, 1000, 0, 0⟩]
        "k" (some "v") (some 60) 50000 50000 false false false).2.1.map
          DBItem.timeUpdated = [50]) ∧
    (((CacheManager.mk (JsFlag.bool true) (JsFlag.bool true) 900).put
        (fun s => s) (fun s : String => s)
        [⟨"k", "v", "k", "v", 60, 100, 1000, 1000, 0, 0⟩]
        "k" (some "v") (some 60) 50000 50000 false false false).2.1.map
          DBItem.ExpiryTime = [110]) ∧
    (50 : Int) ≠ 50000 ∧
    ¬ (110 : Int) = Int.fdiv 50 1000 + 60 ∧
    (110 : Int) = Int.fdiv 50000 1000 + 60 := by
  decide

/-- C2: when the dedup query of `put` finds a live entry with a matching
value fingerprint and the redundancy counter is the literal `true`, the
expiry applied and returned is `timeNowInSeconds` plus the *stored* entry's
`ttlInSeconds`; the caller's TTL argument `ttlArg` does not occur in the
result, so a put with a small TTL after a put with a large TTL re-extends
by the large TTL. -/
theorem put_match_extends_by_stored_ttl {V : Type} (m : CacheManager)
    (md5 : String → String) (stringify : V → String) (tbl : Table)
    (key : String) (v : V) (ttlArg : Option Int) (t1 t2 : Int)
    (dbItem : DBItem)
    (hflag : m.redundancyCounter = JsFlag.bool true)
    (hmatch : queryPutFilter tbl (md5 key) (md5 (stringify v))
      (Int.fdiv t1 1000) = some dbItem) :
    (m.put md5 stringify tbl key (some v) ttlArg t1 t2 false false false).1 =
      some ⟨md5 key, Int.fdiv t1 1000 + dbItem.ttlInSeconds⟩ := by
  simp [CacheManager.put, hmatch, hflag, jsStrictTrue]

/-- C2 witness: stored TTL 600 s, caller passes 5 s, clock at 50000 ms; the
applied expiry is 50 + 600 = 650, not 50 + 5. -/
theorem put_match_extends_by_stored_ttl_witness :
    ((CacheManager.mk (JsFlag.bool true) (JsFlag.bool true) 900).put
        (fun s => s) (fun s : String => s)
        [⟨"k", "v", "k", "v", 600, 100, 1000, 1000, 0, 0⟩]
        "k" (some "v") (some 5) 50000 50000 false false false).1 =
      some ⟨"k", 650⟩ := by
  exact put_match_extends_by_stored_ttl
    (CacheManager.mk (JsFlag.bool true) (JsFlag.bool true) 900)
    (fun s => s) (fun s : String => s)
    [⟨"k", "v", "k", "v", 600, 100, 1000, 1000, 0, 0⟩]
    "k" "v" (some 5) 50000 50000
    ⟨"k", "v", "k", "v", 600, 100, 1000, 1000, 0, 0⟩
    rfl (by decide)

/-- C5: full characterization of `get`.  (i) A provided non-positive
recency window returns a miss immediately with no store call, whatever the
failure schedule.  (ii) Otherwise, a failing query yields a miss, and a
successful query returns the projection of the stored entry exactly when
the filter admits it, computed with recency bound `0` when the window is
omitted.  (iii) The filter admits an entry exactly when it exists under
the key fingerprint and satisfies the strict inequalities
`ExpiryTime > timeNowInSeconds` and
`timeUpdated > recentTimeInMilliseconds`. -/
theorem get_semantics {V : Type} (m : CacheManager) (md5 : String → String)
    (parse : String → V) (tbl : Table) (key : String) (nowMs : Int)
    (bumpFails : Bool) :
    (∀ r : Int, r ≤ 0 → ∀ qf : Bool,
      m.get md5 parse tbl key (some r) nowMs qf bumpFails = (none, tbl, [])) ∧
    (∀ rOpt : Option Int, recencyNonPositive rOpt = false →
      (m.get md5 parse tbl key rOpt nowMs true bumpFails).1 = none ∧
      (m.get md5 parse tbl key rOpt nowMs false bumpFails).1 =
        (queryGetFilter tbl (md5 key) (Int.fdiv nowMs 1000)
            (recentTimeInMilliseconds rOpt nowMs)).map
          (fun it => ⟨parse it.cacheValue, it.ExpiryTime⟩)) ∧
    (∀ (k : String) (ns rt : Int) (it : DBItem),
      queryGetFilter tbl k ns rt = some it ↔
        findByKey tbl k = some it ∧ ns < it.ExpiryTime ∧ rt < it.timeUpdated) := by
  refine ⟨?_, ?_, ?_⟩
  · intro r hr qf
    simp [CacheManager.get, recencyNonPositive, hr]
  · intro rOpt hro
    refine ⟨?_, ?_⟩
    · simp [CacheManager.get, hro]
    · cases hq : queryGetFilter tbl (md5 key) (Int.fdiv nowMs 1000)
        (recentTimeInMilliseconds rOpt nowMs) with
      | none => simp [CacheManager.get, hro, hq]
      | some it =>
        cases hflag : jsStrictTrue m.downLoadCounter <;> cases bumpFails <;>
          simp [CacheManager.get, hro, hq, hflag]
  · intro k ns rt it
    exact queryGetFilter_eq_some_iff tbl k ns rt it

/-- C5 witness: on an empty table with recency window `0`, `get` misses
immediately with no store call; with a live entry and no window, `get`
returns its projection. -/
theorem get_semantics_witness :
    CacheManager.get (CacheManager.mk (JsFlag.bool true) (JsFlag.bool true) 900)
      (fun s => s) (fun s : String => s) [] "k" (some 0) 1000 false false =
      (none, [], []) ∧
    queryGetFilter [⟨"k", "v", "k", "vv", 60, 100, 900, 900, 0, 0⟩] "k" 50 0 =
      some ⟨"k", "v", "k", "vv", 60, 100, 900, 900, 0, 0⟩ := by
  refine ⟨?_, ?_⟩
  · exact (get_semantics (CacheManager.mk (JsFlag.bool true) (JsFlag.bool true) 900)
      (fun s => s) (fun s : String => s) [] "k" 1000 false).1 0 (by decide) false
  · exact ((get_semantics (CacheManager.mk (JsFlag.bool true) (JsFlag.bool true) 900)
      (fun s => s) (fun s : String => s)
      [⟨"k", "v", "k", "vv", 60, 100, 900, 900, 0, 0⟩] "k" 1000 false).2.2 "k" 50 0
      ⟨"k", "v", "k", "vv", 60, 100, 900, 900, 0, 0⟩).mpr ⟨by decide, by decide, by decide⟩

/-- C8: on a `get` hit, the returned value is the same whether the
download-counter bump succeeds or fails, and the bump (the second store
call) is issued exactly when `downLoadCounter` is the boolean literal
`true`. -/
theorem get_hit_independent_of_bump_outcome {V : Type} (m : CacheManager)
    (md5 : String → String) (parse : String → V) (tbl : Table) (key : String)
    (rOpt : Option Int) (nowMs : Int) (it : DBItem)
    (hrec : recencyNonPositive rOpt = false)
    (hhit : queryGetFilter tbl (md5 key) (Int.fdiv nowMs 1000)
      (recentTimeInMilliseconds rOpt nowMs) = some it) :
    ∀ bumpFails : Bool,
      (m.get md5 parse tbl key rOpt nowMs false bumpFails).1 =
        some ⟨parse it.cacheValue, it.ExpiryTime⟩ ∧
      (StoreCall.update ∈ (m.get md5 parse tbl key rOpt nowMs false bumpFails).2.2 ↔
        jsStrictTrue m.downLoadCounter = true) := by
  intro bumpFails
  cases hflag : jsStrictTrue m.downLoadCounter <;> cases bumpFails <;>
    simp [CacheManager.get, hrec, hhit, hflag]

/-- C8 witness: with the counter on, the hit value is identical whether
the bump fails or succeeds, and the update call is issued. -/
theorem get_hit_independent_of_bump_outcome_witness :
    ((CacheManager.mk (JsFlag.bool true) (JsFlag.bool true) 900).get
        (fun s => s) (fun s : String => s)
        [⟨"k", "v", "k", "vv", 60, 100, 900, 900, 0, 0⟩]
        "k" none 50000 false true).1 = some ⟨"vv", 100⟩ ∧
    (StoreCall.update ∈
      ((CacheManager.mk (JsFlag.bool true) (JsFlag.bool true) 900).get
        (fun s => s) (fun s : String => s)
        [⟨"k", "v", "k", "vv", 60, 100, 900, 900, 0, 0⟩]
        "k" none 50000 false true).2.2 ↔
      jsStrictTrue (CacheManager.mk (JsFlag.bool true)
        (JsFlag.bool true) 900).downLoadCounter = true) := by
  exact get_hit_independent_of_bump_outcome
    (CacheManager.mk (JsFlag.bool true) (JsFlag.bool true) 900)
    (fun s => s) (fun s : String => s)
    [⟨"k", "v", "k", "vv", 60, 100, 900, 900, 0, 0⟩]
    "k" none 50000 ⟨"k", "v", "k", "vv", 60, 100, 900, 900, 0, 0⟩
    rfl (by decide) true

/-- C3: with the redundancy counter off (`false`), a `put` of a fresh
entry followed by a second `put` of the identical value (while the entry
is still live) returns the same `{keyMD5, ExpiryTime}` as the first call,
leaves the table exactly as the first call left it, and issues only the
dedup query — no write of any kind. -/
theorem put_idempotent_with_counter_off {V : Type} (m : CacheManager)
    (md5 : String → String) (stringify : V → String) (tbl : Table)
    (key : String) (v : V) (ttl1 ttl2 : Option Int) (t1 t2 t3 t4 : Int)
    (hflag : m.redundancyCounter = JsFlag.bool false)
    (hfresh : findByKey tbl (md5 key) = none)
    (hlive : Int.fdiv t3 1000 < Int.fdiv t2 1000 + effectiveTTL m ttl1) :
    (m.put md5 stringify tbl key (some v) ttl1 t1 t2 false false false).1 =
      some ⟨md5 key, Int.fdiv t2 1000 + effectiveTTL m ttl1⟩ ∧
    m.put md5 stringify
        (m.put md5 stringify tbl key (some v) ttl1 t1 t2 false false false).2.1
        key (some v) ttl2 t3 t4 false false false =
      (some ⟨md5 key, Int.fdiv t2 1000 + effectiveTTL m ttl1⟩,
       (m.put md5 stringify tbl key (some v) ttl1 t1 t2 false false false).2.1,
       [StoreCall.query]) := by
  have h1 : queryPutFilter tbl (md5 key) (md5 (stringify v))
      (Int.fdiv t1 1000) = none := by
    simp [queryPutFilter, hfresh]
  have hsf : jsStrictTrue m.redundancyCounter = false := by rw [hflag]; rfl
  refine ⟨by simp [CacheManager.put, h1], ?_⟩
  have hput1 : m.put md5 stringify tbl key (some v) ttl1 t1 t2 false false false =
      (some ⟨md5 key, Int.fdiv t2 1000 + effectiveTTL m ttl1⟩,
        upsertItem tbl
          { KeyMD5 := md5 key, ValueMD5 := md5 (stringify v), cacheKey := key,
            cacheValue := stringify v, ttlInSeconds := effectiveTTL m ttl1,
            ExpiryTime := Int.fdiv t2 1000 + effectiveTTL m ttl1,
            timeCreated := t2, timeUpdated := t2, downloads := 0,
            redundancy := 0 },
        [StoreCall.query, StoreCall.putItem]) := by
    simp [CacheManager.put, h1]
  rw [hput1]
  have h2 : queryPutFilter
      (upsertItem tbl
        { KeyMD5 := md5 key, ValueMD5 := md5 (stringify v), cacheKey := key,
          cacheValue := stringify v, ttlInSeconds := effectiveTTL m ttl1,
          ExpiryTime := Int.fdiv t2 1000 + effectiveTTL m ttl1,
          timeCreated := t2, timeUpdated := t2, downloads := 0,
          redundancy := 0 })
      (md5 key) (md5 (stringify v)) (Int.fdiv t3 1000) =
      some
        { KeyMD5 := md5 key, ValueMD5 := md5 (stringify v), cacheKey := key,
          cacheValue := stringify v, ttlInSeconds := effectiveTTL m ttl1,
          ExpiryTime := Int.fdiv t2 1000 + effectiveTTL m ttl1,
          timeCreated := t2, timeUpdated := t2, downloads := 0,
          redundancy := 0 } := by
    simp [queryPutFilter, findByKey, upsertItem, List.find?, hlive]
  simp [CacheManager.put, h2, hsf]

/-- C3 witness: two identical puts of `"v"` under key `"k"` with the
counter off; the second returns the first's expiry (61), changes nothing
and issues only the query. -/
theorem put_idempotent_with_counter_off_witness :
    ((CacheManager.mk (JsFlag.bool true) (JsFlag.bool false) 900).put
        (fun s => s) (fun s : String => s) [] "k" (some "v") (some 60)
        1000 1000 false false false).1 =
      some ⟨"k", Int.fdiv 1000 1000 +
        effectiveTTL (CacheManager.mk (JsFlag.bool true) (JsFlag.bool false) 900)
          (some 60)⟩ ∧
    (CacheManager.mk (JsFlag.bool true) (JsFlag.bool false) 900).put
        (fun s => s) (fun s : String => s)
        (((CacheManager.mk (JsFlag.bool true) (JsFlag.bool false) 900).put
          (fun s => s) (fun s : String => s) [] "k" (some "v") (some 60)
          1000 1000 false false false).2.1)
        "k" (some "v") (some 60) 2000 2000 false false false =
      (some ⟨"k", Int.fdiv 1000 1000 +
        effectiveTTL (CacheManager.mk (JsFlag.bool true) (JsFlag.bool false) 900)
          (some 60)⟩,
       ((CacheManager.mk (JsFlag.bool true) (JsFlag.bool false) 900).put
          (fun s => s) (fun s : String => s) [] "k" (some "v") (some 60)
          1000 1000 false false false).2.1,
       [StoreCall.query]) := by
  exact put_idempotent_with_counter_off
    (CacheManager.mk (JsFlag.bool true) (JsFlag.bool false) 900)
    (fun s => s) (fun s : String => s) [] "k" "v" (some 60) (some 60)
    1000 1000 2000 2000 rfl rfl (by decide)

/-- C4: a successful `put` of a non-null value under a fresh key followed
immediately by `get` of the same key returns the value unchanged (given
the codec round-trip contract) together with an expiry `e` satisfying
`now + ttl - 1s < e ≤ now + ttl` (stated in milliseconds). -/
theorem put_then_get_roundtrip {V : Type} (m : CacheManager)
    (md5 : String → String) (stringify : V → String) (parse : String → V)
    (tbl : Table) (key : String) (v : V) (ttl nowMs : Int)
    (hcodec : parse (stringify v) = v)
    (hfresh : findByKey tbl (md5 key) = none)
    (htpos : 0 < ttl) (hnow : 0 < nowMs) :
    ∃ e : Int,
      (m.put md5 stringify tbl key (some v) (some ttl) nowMs nowMs
        false false false).1 = some ⟨md5 key, e⟩ ∧
      (m.get md5 parse
        (m.put md5 stringify tbl key (some v) (some ttl) nowMs nowMs
          false false false).2.1
        key none nowMs false false).1 = some ⟨v, e⟩ ∧
      e * 1000 ≤ nowMs + ttl * 1000 ∧
      nowMs + ttl * 1000 < e * 1000 + 1000 := by
  have httl : effectiveTTL m (some ttl) = ttl := by
    simp [effectiveTTL, not_le.mpr htpos]
  have hq1 : queryPutFilter tbl (md5 key) (md5 (stringify v))
      (Int.fdiv nowMs 1000) = none := by
    simp [queryPutFilter, hfresh]
  have hdecomp := Int.fmod_add_fdiv nowMs 1000
  have hnn : 0 ≤ Int.fmod nowMs 1000 := Int.fmod_nonneg' nowMs (by norm_num)
  have hlt : Int.fmod nowMs 1000 < 1000 := Int.fmod_lt_of_pos nowMs (by norm_num)
  refine ⟨Int.fdiv nowMs 1000 + ttl, ?_, ?_, by linarith, by linarith⟩
  · simp [CacheManager.put, hq1, httl]
  · cases hflag : jsStrictTrue m.downLoadCounter <;>
      simp [CacheManager.put, CacheManager.get, hq1, httl, hflag,
        recencyNonPositive, recentTimeInMilliseconds, queryGetFilter,
        findByKey, upsertItem, List.find?, hcodec, hnow, htpos]

/-- C4 witness: key `"k"`, value `"vv"`, TTL 60 s, clock 5000 ms, identity
codec; `put` then `get` returns `"vv"` with expiry 65 s, and
65000 ∈ (5000 + 60000 - 1000, 5000 + 60000]. -/
theorem put_then_get_roundtrip_witness :
    ∃ e : Int,
      ((CacheManager.mk (JsFlag.bool true) (JsFlag.bool true) 900).put
        (fun s => s) (fun s : String => s) [] "k" (some "vv") (some 60)
        5000 5000 false false false).1 = some ⟨"k", e⟩ ∧
      ((CacheManager.mk (JsFlag.bool true) (JsFlag.bool true) 900).get
        (fun s => s) (fun s : String => s)
        (((CacheManager.mk (JsFlag.bool true) (JsFlag.bool true) 900).put
          (fun s => s) (fun s : String => s) [] "k" (some "vv") (some 60)
          5000 5000 false false false).2.1)
        "k" none 5000 false false).1 = some ⟨"vv", e⟩ ∧
      e * 1000 ≤ 5000 + 60 * 1000 ∧
      5000 + 60 * 1000 < e * 1000 + 1000 := by
  exact put_then_get_roundtrip
    (CacheManager.mk (JsFlag.bool true) (JsFlag.bool true) 900)
    (fun s => s) (fun s : String => s) (fun s => s) [] "k" "vv" 60 5000
    rfl rfl (by decide) (by decide)

/-- C10: the counter toggles are compared with the boolean literal `true`
by strict equality, so any truthy flag other than `true` (a nonzero
number, a non-empty string) behaves as off: a `get` hit issues no bump and
leaves the table unchanged, and a `put` whose dedup query matches takes
the zero-mutation early return instead of extending the entry. -/
theorem truthy_nonliteral_flags_behave_as_off {V : Type} (m : CacheManager)
    (md5 : String → String) (stringify : V → String) (parse : String → V)
    (tbl : Table) (key : String) (v : V) (rOpt : Option Int)
    (ttl : Option Int) (t1 t2 t3 : Int) (git pit : DBItem) (bumpFails : Bool)
    (hdT : jsTruthy m.downLoadCounter = true)
    (hdN : m.downLoadCounter ≠ JsFlag.bool true)
    (hrT : jsTruthy m.redundancyCounter = true)
    (hrN : m.redundancyCounter ≠ JsFlag.bool true)
    (hrec : recencyNonPositive rOpt = false)
    (hget : queryGetFilter tbl (md5 key) (Int.fdiv t1 1000)
      (recentTimeInMilliseconds rOpt t1) = some git)
    (hput : queryPutFilter tbl (md5 key) (md5 (stringify v))
      (Int.fdiv t2 1000) = some pit) :
    m.get md5 parse tbl key rOpt t1 false bumpFails =
      (some ⟨parse git.cacheValue, git.ExpiryTime⟩, tbl, [StoreCall.query]) ∧
    m.put md5 stringify tbl key (some v) ttl t2 t3 false false false =
      (some ⟨md5 key, pit.ExpiryTime⟩, tbl, [StoreCall.query]) := by
  have hd : jsStrictTrue m.downLoadCounter = false := jsStrictTrue_eq_false_of_ne hdN
  have hr : jsStrictTrue m.redundancyCounter = false := jsStrictTrue_eq_false_of_ne hrN
  refine ⟨?_, ?_⟩
  · simp [CacheManager.get, hrec, hget, hd]
  · simp [CacheManager.put, hput, hr]

/-- C10 witness: flags `1` (truthy number) and `"true"` (truthy string)
with a live entry: the `get` hit issues only the query and the matching
`put` early-returns the stored expiry with no mutation. -/
theorem truthy_nonliteral_flags_behave_as_off_witness :
    (CacheManager.mk (JsFlag.num 1) (JsFlag.str "true") 900).get
        (fun s => s) (fun s : String => s)
        [⟨"k", "v", "k", "vv", 60, 100, 900, 900, 0, 0⟩]
        "k" none 50000 false false =
      (some ⟨"vv", 100⟩, [⟨"k", "v", "k", "vv", 60, 100, 900, 900, 0, 0⟩],
        [StoreCall.query]) ∧
    (CacheManager.mk (JsFlag.num 1) (JsFlag.str "true") 900).put
        (fun s => s) (fun s : String => s)
        [⟨"k", "v", "k", "vv", 60, 100, 900, 900, 0, 0⟩]
        "k" (some "v") (some 60) 50000 50000 false false false =
      (some ⟨"k", 100⟩, [⟨"k", "v", "k", "vv", 60, 100, 900, 900, 0, 0⟩],
        [StoreCall.query]) := by
  exact truthy_nonliteral_flags_behave_as_off
    (CacheManager.mk (JsFlag.num 1) (JsFlag.str "true") 900)
    (fun s => s) (fun s : String => s) (fun s => s)
    [⟨"k", "v", "k", "vv", 60, 100, 900, 900, 0, 0⟩]
    "k" "v" none (some 60) 50000 50000 50000
    ⟨"k", "v", "k", "vv", 60, 100, 900, 900, 0, 0⟩
    ⟨"k", "v", "k", "vv", 60, 100, 900, 900, 0, 0⟩
    false rfl (by decide) rfl (by decide) rfl (by decide) (by decide)

end GpdcDynamodb
